import Mathlib

/-!
Verification of the firstcommit retrieval-and-grounding core.

This file gives a shallow embedding, in Lean, of the Go services of the
repository (server/internal/...) and settles the specified properties
against it.  Each embedded definition is translated from the Go source
named in its doc comment.  Numeric scores that the Go code carries as
float64 are embedded as rationals (ℚ): every arithmetic operation the
embedded code performs (multiplication by fixed weights, division by the
constants 1000 and 100, addition, order comparison) is exact, and the
properties at issue are order-theoretic, so the idealisation does not
change any of the verdicts.  External collaborators (MongoDB, the GitHub
API, the embedding subprocess, the Vertex generative model) are passed in
as explicit function parameters, following the dependency-injection
reading of the spec; a call that can fail returns an `Option`.
-/

namespace FirstCommit

/-! ### Generic comparison sort

`sort.Slice` in Go sorts a slice in place given a strict `less` function;
the callers in `repository/repo_mongo.go` pass `less i j := score i > score j`,
i.e. they request any ordering whose scores are non-increasing.  `sort.Slice`
is not stable, so the relative order of equal-score entries is unspecified;
we model the sort with an insertion sort parameterised by the non-strict
Boolean comparison `le a b` (meaning "a may come before b"), which realises
one admissible outcome.  Every property proved below about sorted output is
either invariant under permutation of equal keys or is a counterexample
with pairwise-distinct keys, so the choice of realisation is harmless.
-/

/-- Insert `a` into `l` in front of the first element `b` with `le a b`. -/
def insertBy {α : Type} (le : α → α → Bool) (a : α) : List α → List α
  | [] => [a]
  | b :: l => if le a b then a :: b :: l else b :: insertBy le a l

/-- Insertion sort by the Boolean comparison `le`. -/
def sortBy {α : Type} (le : α → α → Bool) : List α → List α
  | [] => []
  | a :: l => insertBy le a (sortBy le l)

theorem perm_insertBy {α : Type} (le : α → α → Bool) (a : α) :
    ∀ l : List α, List.Perm (insertBy le a l) (a :: l)
  | [] => List.Perm.refl _
  | b :: l => by
      unfold insertBy
      split
      · exact List.Perm.refl _
      · exact ((perm_insertBy le a l).cons b).trans (List.Perm.swap a b l)

theorem perm_sortBy {α : Type} (le : α → α → Bool) :
    ∀ l : List α, List.Perm (sortBy le l) l
  | [] => List.Perm.refl _
  | a :: l => by
      unfold sortBy
      exact (perm_insertBy le a (sortBy le l)).trans ((perm_sortBy le l).cons a)

theorem mem_insertBy {α : Type} {le : α → α → Bool} {a x : α} {l : List α} :
    x ∈ insertBy le a l ↔ x = a ∨ x ∈ l := by
  rw [(perm_insertBy le a l).mem_iff, List.mem_cons]

theorem pairwise_insertBy {α : Type} {le : α → α → Bool}
    (total : ∀ a b, le a b = true ∨ le b a = true)
    (trans : ∀ a b c, le a b = true → le b c = true → le a c = true)
    (a : α) :
    ∀ {l : List α}, l.Pairwise (fun x y => le x y = true) →
      (insertBy le a l).Pairwise (fun x y => le x y = true) := by
  intro l h
  induction l with
  | nil => simp [insertBy]
  | cons b l ih =>
      rw [List.pairwise_cons] at h
      obtain ⟨hb, hl⟩ := h
      unfold insertBy
      by_cases hab : le a b = true
      · rw [if_pos hab, List.pairwise_cons]
        refine ⟨?_, List.pairwise_cons.mpr ⟨hb, hl⟩⟩
        intro x hx
        rcases List.mem_cons.mp hx with hxb | hxl
        · exact hxb ▸ hab
        · exact trans a b x hab (hb x hxl)
      · rw [if_neg hab, List.pairwise_cons]
        refine ⟨?_, ih hl⟩
        intro x hx
        rcases mem_insertBy.mp hx with hxa | hxl
        · rcases total a b with h1 | h1
          · exact absurd h1 hab
          · exact hxa.symm ▸ h1
        · exact hb x hxl

theorem pairwise_sortBy {α : Type} {le : α → α → Bool}
    (total : ∀ a b, le a b = true ∨ le b a = true)
    (trans : ∀ a b c, le a b = true → le b c = true → le a c = true) :
    ∀ l : List α, (sortBy le l).Pairwise (fun x y => le x y = true)
  | [] => List.Pairwise.nil
  | a :: l => by
      unfold sortBy
      exact pairwise_insertBy total trans a (pairwise_sortBy total trans l)

/-! ### Repository vector search (`repository/repo_mongo.go`, `VectorSearch`)

`VectorSearch` builds a MongoDB aggregation pipeline:
  1. `$vectorSearch` — the external index returns up to `k` candidate rows
     ordered by raw cosine similarity (opaque capability: we take the row
     list as an input);
  2. `$project` — keeps the metadata fields, binds `score` to the raw
     similarity, and computes
       `relevance_score = score*0.7 + (stargazers_count/1000)*0.2
                          + (forks_count/100)*0.1`;
  3. `$sort {relevance_score: -1}` — orders rows by descending blended
     relevance.
The Go code then decodes the rows, fans out a bounded set of goroutines
that each look up the full record in the federated metadata store
(`FindByID`), drops a candidate when its lookup fails, copies the raw
`Score` onto the enriched record, waits for all lookups, and finally
re-sorts the enriched slice with `sort.Slice(..., Score i > Score j)` —
i.e. by the raw similarity score, not by `relevance_score`.
Goroutine completion order (the order of appends to `enriched`) is
abstracted away: the pre-sort row order is used, which is one admissible
interleaving, and every theorem below is insensitive to that choice.
-/

/-- One decoded row of the aggregation pipeline (`vectorSearchResult` in
`repo_mongo.go`).  `stargazersCount` and `forksCount` are integer counts
in Mongo; they are carried in ℚ because the pipeline immediately divides
them by 1000 resp. 100. -/
structure VSResult where
  id : String
  name : String
  description : String
  stargazersCount : ℚ
  forksCount : ℚ
  score : ℚ
  deriving DecidableEq

/-- The blended relevance computed inside the `$project` stage:
`score*0.7 + (stars/1000)*0.2 + (forks/100)*0.1`.  This is the
`blend(rawSimilarity, popularitySignals)` of the spec. -/
def relevanceScore (score stars forks : ℚ) : ℚ :=
  score * (7 / 10) + stars / 1000 * (2 / 10) + forks / 100 * (1 / 10)

/-- The `relevance_score` of a pipeline row. -/
def relevance (r : VSResult) : ℚ :=
  relevanceScore r.score r.stargazersCount r.forksCount

/-- The authoritative repository record (`models.Repo` in
`models/repo.go`): `_id`, name, full name, star count, and the vector
search `Score` the enrichment step copies onto it.  The remaining fields
(owner, description, languages, image URL, embedding) are plain data
that no modelled code inspects and are omitted.  Note the authoritative
record carries no fork count. -/
structure Repo where
  id : String
  name : String
  fullName : String
  stars : Int
  score : ℚ
  deriving DecidableEq

/-- The `$sort {relevance_score: -1}` stage of the pipeline. -/
def pipelineSort (results : List VSResult) : List VSResult :=
  sortBy (fun a b => decide (relevance b ≤ relevance a)) results

/-- The enrichment fan-out: for each candidate row, look the full record
up in the federated store (`FindByID`); a failed lookup drops the
candidate (a diagnostic is logged); a successful one gets the raw
`Score` of the row copied onto it (`fullRepo.Score = result.Score`). -/
def enrich (lookup : String → Option Repo) (results : List VSResult) : List Repo :=
  results.filterMap fun r => (lookup r.id).map fun rec => { rec with score := r.score }

/-- The post-pipeline part of `VectorSearch`: decode rows (already
ordered by the `relevance_score` sort of the pipeline), enrich them against
the federated store, then re-sort the survivors with
`sort.Slice(..., enriched[i].repo.Score > enriched[j].repo.Score)`. -/
def vectorSearch (lookup : String → Option Repo) (results : List VSResult) : List Repo :=
  sortBy (fun a b => decide (b.score ≤ a.score)) (enrich lookup (pipelineSort results))

/-! Concrete data for the C1 counterexample: candidate `a/a` has raw
similarity 1/2 but 10000 stars, candidate `b/b` has raw similarity 3/5
and no stars, so their blended relevance order (`a/a` first) is the
reverse of their raw-score order (`b/b` first). -/

def rowA : VSResult := ⟨"a/a", "a", "library a", 10000, 0, 1 / 2⟩

def rowB : VSResult := ⟨"b/b", "b", "library b", 0, 0, 3 / 5⟩

def recA : Repo := ⟨"a/a", "a", "a/a", 10000, 0⟩

def recB : Repo := ⟨"b/b", "b", "b/b", 0, 0⟩

/-- Federated metadata store holding exactly the two records above. -/
def lookupAB : String → Option Repo := fun id =>
  if id = "a/a" then some recA else if id = "b/b" then some recB else none

/-- C1 (counterexample).  The claim says the repository search returns
its results sorted in descending order of blendedScore (with identifier
tie-break).  On the concrete two-candidate input above the code returns
`[b/b, a/a]` even though `a/a` has the strictly larger blended score
(`relevance rowA = 47/20 > 21/50 = relevance rowB`): the final
`sort.Slice` orders by the raw `Score`, discarding the blended
ordering of the pipeline.  So the first returned result has strictly smaller
blendedScore than the second, refuting the claim. -/
theorem vectorSearch_blended_order_counterexample :
    vectorSearch lookupAB [rowA, rowB]
        = [{ recB with score := 3 / 5 }, { recA with score := 1 / 2 }]
      ∧ relevance rowB < relevance rowA := by
  constructor
  · norm_num [vectorSearch, pipelineSort, sortBy, insertBy, enrich, lookupAB,
      rowA, rowB, recA, recB, relevance, relevanceScore]
  · norm_num [relevance, relevanceScore, rowA, rowB]

/-- C1 (amended).  What the code guarantees instead: the returned list is
sorted in descending order of the raw similarity `Score` (the comparator
passed to the final `sort.Slice`); nothing orders ties, in particular no
identifier tie-break exists. -/
theorem vectorSearch_sorted_by_raw_score
    (lookup : String → Option Repo) (results : List VSResult) :
    (vectorSearch lookup results).Pairwise (fun a b => b.score ≤ a.score) := by
  have h := @pairwise_sortBy Repo (fun a b => decide (b.score ≤ a.score))
    (fun a b => by
      rcases le_total b.score a.score with h | h
      · exact Or.inl (decide_eq_true h)
      · exact Or.inr (decide_eq_true h))
    (fun a b c hab hbc =>
      decide_eq_true (le_trans (of_decide_eq_true hbc) (of_decide_eq_true hab)))
    (enrich lookup (pipelineSort results))
  exact h.imp fun hx => of_decide_eq_true hx

/-- Auxiliary: the number of surviving enriched records plus the number
of failed lookups equals the number of candidates. -/
theorem length_enrich (lookup : String → Option Repo) :
    ∀ results : List VSResult,
      (enrich lookup results).length
          + results.countP (fun r => (lookup r.id).isNone) = results.length
  | [] => rfl
  | r :: results => by
      have ih := length_enrich lookup results
      unfold enrich at ih ⊢
      rw [List.filterMap_cons, List.countP_cons]
      cases h : lookup r.id with
      | none => simp [h]; omega
      | some rec => simp [h]; omega

/-- C2.  Failure tolerance of the enrichment fan-out: with `N`
candidates of which `M` fail their authoritative lookup, the search
returns exactly `N − M` results (stated subtraction-free as
`|output| + M = N`, which also covers the boundary cases `M = 0` and
`M = N`), and every returned record is the authoritative record of some
candidate whose lookup succeeded, carrying the raw score of that candidate —
no record is fabricated. -/
theorem vectorSearch_failure_tolerance
    (lookup : String → Option Repo) (results : List VSResult) :
    (vectorSearch lookup results).length
        + results.countP (fun r => (lookup r.id).isNone) = results.length
      ∧ ∀ x ∈ vectorSearch lookup results,
          ∃ r ∈ results, ∃ rec, lookup r.id = some rec
            ∧ x = { rec with score := r.score } := by
  have hperm := perm_sortBy (fun a b : Repo => decide (b.score ≤ a.score))
    (enrich lookup (pipelineSort results))
  have hpipe := perm_sortBy (fun a b : VSResult => decide (relevance b ≤ relevance a)) results
  constructor
  · have h1 : (vectorSearch lookup results).length
        = (enrich lookup (pipelineSort results)).length := by
      unfold vectorSearch
      exact hperm.length_eq
    have h2 := length_enrich lookup (pipelineSort results)
    have h3 : (pipelineSort results).countP (fun r => (lookup r.id).isNone)
        = results.countP (fun r => (lookup r.id).isNone) := by
      unfold pipelineSort
      exact hpipe.countP_eq _
    have h4 : (pipelineSort results).length = results.length := by
      unfold pipelineSort
      exact hpipe.length_eq
    omega
  · intro x hx
    unfold vectorSearch at hx
    have hx' : x ∈ enrich lookup (pipelineSort results) := hperm.mem_iff.mp hx
    unfold enrich at hx'
    rcases List.mem_filterMap.mp hx' with ⟨r, hr, hmap⟩
    rcases Option.map_eq_some'.mp hmap with ⟨rec, hrec, hxeq⟩
    refine ⟨r, ?_, rec, hrec, hxeq.symm⟩
    unfold pipelineSort at hr
    exact hpipe.mem_iff.mp hr

/-- C3.  The relevance blend is jointly monotone: it is non-decreasing
in the raw similarity for fixed popularity signals and non-decreasing in
each popularity component (stars, forks) for fixed similarity — each of
those follows by fixing the other two arguments with `le_refl`. -/
theorem relevanceScore_monotone
    (s s' stars stars' forks forks' : ℚ)
    (hs : s ≤ s') (hstars : stars ≤ stars') (hforks : forks ≤ forks') :
    relevanceScore s stars forks ≤ relevanceScore s' stars' forks' := by
  unfold relevanceScore
  have h1 : s * (7 / 10) ≤ s' * (7 / 10) := by nlinarith
  have h2 : stars / 1000 * (2 / 10) ≤ stars' / 1000 * (2 / 10) := by nlinarith
  have h3 : forks / 100 * (1 / 10) ≤ forks' / 100 * (1 / 10) := by nlinarith
  linarith

/-- Witness for C3 at a concrete input. -/
theorem relevanceScore_monotone_witness :
    ((1 : ℚ) / 2 ≤ 3 / 5 ∧ (100 : ℚ) ≤ 228000 ∧ (10 : ℚ) ≤ 46800)
      ∧ relevanceScore (1 / 2) 100 10 ≤ relevanceScore (3 / 5) 228000 46800 :=
  ⟨⟨by norm_num, by norm_num, by norm_num⟩,
    relevanceScore_monotone (1 / 2) (3 / 5) 100 228000 10 46800
      (by norm_num) (by norm_num) (by norm_num)⟩

/-! ### Go string helpers

`guide_service.go` splits the issue identity with `strings.Split` on the
single-character separators `"#"` and `"/"`, rejoins the two halves with
`fmt.Sprintf("%s#%s", ...)`, and parses the issue number with
`strconv.Atoi`.  The built-in `String.splitOn` of Lean is defined by well-founded
recursion (so closed instances do not reduce by `decide`); we therefore
embed `strings.Split` with a single-character separator directly, by
structural recursion over the character list.  `goAtoi` embeds
`strconv.Atoi`: an optional sign followed by at least one decimal digit
(arbitrary precision; the Go overflow error cannot occur on the inputs at
issue and is not modelled). -/

/-- Model of `strings.Split` with a one-character separator, on character lists:
splitting the empty string yields `[""]`, and each occurrence of the
separator starts a new field. -/
def goSplit (sep : Char) : List Char → List (List Char)
  | [] => [[]]
  | c :: cs =>
      if c = sep then [] :: goSplit sep cs
      else
        match goSplit sep cs with
        | [] => [[c]]
        | w :: ws => (c :: w) :: ws

/-- Model of `strings.Split s sep` for a one-character `sep`. -/
def goSplitStr (sep : Char) (s : String) : List String :=
  (goSplit sep s.data).map fun w => String.mk w

/-- Decimal digit accumulator for `goAtoi`. -/
def goAtoiDigits : List Char → Nat → Option Nat
  | [], acc => some acc
  | c :: cs, acc =>
      if c.isDigit then goAtoiDigits cs (acc * 10 + (c.toNat - 48)) else none

/-- Model of `strconv.Atoi`: an optional sign, then one or more digits. -/
def goAtoi (s : String) : Option Int :=
  match s.data with
  | [] => none
  | '+' :: ds =>
      match ds with
      | [] => none
      | _ => (goAtoiDigits ds 0).map fun n => (n : Int)
  | '-' :: ds =>
      match ds with
      | [] => none
      | _ => (goAtoiDigits ds 0).map fun n => -(n : Int)
  | ds => (goAtoiDigits ds 0).map fun n => (n : Int)

/-! ### Guide cache and guide service
(`repository/guide_mongo.go`, `service/guide_service.go`,
`service/chat_service.go`)

The guides collection keys documents by `_id` (the issue identity
`"owner/repo#number"`); we model it as a partial map from keys to
documents.  External collaborators of `GetGuide` — the GitHub issue
fetch, the federated repository lookup, the top-context-chunk query, and
the generative model (`LLMClient.GenerateGuide`) — are supplied as
fields of a `GuideEnv`; each returns `none` on failure.  The third
component of the `getGuide` result counts invocations of the generative
model. -/

/-- The GitHub issue fields the guide service consumes
(`models.Issue`; the remaining fields are plain data carried along). -/
structure Issue where
  number : Int
  title : String
  body : String
  deriving DecidableEq

/-- A persisted guide (`models.Guide` in `models/query.go`): `_id` is the
issue identity, `answer` the generated text, `issue` the snapshot of the
source issue, `createdAt` the creation timestamp (an opaque tick). -/
structure Guide where
  id : String
  answer : String
  issue : Issue
  createdAt : Nat
  deriving DecidableEq

/-- A code chunk (`models.CodeChunk`). -/
structure CodeChunk where
  id : String
  repoId : String
  text : String
  file : String
  score : ℚ
  deriving DecidableEq

/-- The guides collection: at most one document per `_id`. -/
def GuideStore : Type := String → Option Guide

/-- The zero value `models.Guide{}` that `FindByIssueID` returns on a
cache miss (together with a nil error). -/
def emptyGuide : Guide := ⟨"", "", ⟨0, "", ""⟩, 0⟩

/-- Model of `GuideRepository.FindByIssueID`: returns the stored document, or the
zero-value guide when no document exists (`mongo.ErrNoDocuments` is
mapped to a nil error so callers can regenerate). -/
def findByIssueID (st : GuideStore) (issueID : String) : Guide :=
  match st issueID with
  | some g => g
  | none => emptyGuide

/-- Model of `GuideRepository.Upsert`: a `ReplaceOne` with upsert enabled, keyed by
`_id = g.id` — the whole document under that key is replaced. -/
def upsert (st : GuideStore) (g : Guide) : GuideStore :=
  fun k => if k = g.id then some g else st k

/-- External collaborators of `GetGuide`, injected explicitly.
`generate` is `LLMClient.GenerateGuide(issue, contextChunks)`; `now` is
the clock read by `time.Now()`. -/
structure GuideEnv where
  getIssue : String → String → Int → Option Issue
  findRepo : String → Option Repo
  topChunks : String → Nat → Option (List CodeChunk)
  generate : Issue → List String → Option String
  now : Nat

/-- Model of `guideService.GetGuide`: split the identity on `"#"`; look the cache
key up; on a hit whose `ID` is non-empty return the cached guide with no
model call; otherwise parse owner, repository and issue number, fetch
the issue, the repository document, and the top 20 context chunks,
invoke the generative model once, persist the guide and return it.
Result: (guide or failure, the store after the call, number of
generative-model invocations). -/
def getGuide (env : GuideEnv) (st : GuideStore) (issueID : String) :
    Option Guide × GuideStore × Nat :=
  match goSplitStr '#' issueID with
  | [repoPart, numberPart] =>
      let cacheKey := repoPart ++ "#" ++ numberPart
      let cached := findByIssueID st cacheKey
      if cached.id = "" then
        match goSplitStr '/' repoPart with
        | [owner, repoName] =>
            match goAtoi numberPart with
            | none => (none, st, 0)
            | some num =>
                match env.getIssue owner repoName num with
                | none => (none, st, 0)
                | some issue =>
                    match env.findRepo repoName with
                    | none => (none, st, 0)
                    | some repoDoc =>
                        match env.topChunks repoDoc.id 20 with
                        | none => (none, st, 0)
                        | some chunks =>
                            match env.generate issue (chunks.map fun c => c.text) with
                            | none => (none, st, 1)
                            | some answer =>
                                let g : Guide := ⟨issueID, answer, issue, env.now⟩
                                (some g, upsert st g, 1)
        | _ => (none, st, 0)
      else (some cached, st, 0)
  | _ => (none, st, 0)

/-- The fixed answer of `chatService.Ask`
("RAG integration pending" placeholder). -/
def chatAnswer : String := "This is a placeholder answer. RAG integration pending."

/-- Model of `chatService.Ask`: an empty question returns the empty answer
without touching anything; otherwise the guide is fetched via
`GetGuide` (which may itself generate one), failures propagate, and on
success the placeholder answer is returned.  Result components as in
`getGuide`. -/
def ask (env : GuideEnv) (st : GuideStore) (contextID question : String) :
    Option String × GuideStore × Nat :=
  if question = "" then (some "", st, 0)
  else
    match getGuide env st contextID with
    | (none, st', n) => (none, st', n)
    | (some _, st', n) => (some chatAnswer, st', n)

/-- Splitting the empty string yields one empty field, as in Go. -/
theorem goSplitStr_empty (sep : Char) : goSplitStr sep "" = [""] := rfl

/-- A string that `strings.Split` cuts into two fields is not empty. -/
theorem ne_empty_of_goSplitStr_pair {sep : Char} {s a b : String}
    (h : goSplitStr sep s = [a, b]) : s ≠ "" := by
  intro hs
  rw [hs, goSplitStr_empty] at h
  simp at h

/-- Helper: `GetGuide` on a cache hit with a non-empty stored `ID`
returns the cached guide without touching the store or the model. -/
theorem getGuide_cache_hit (env : GuideEnv) (st : GuideStore)
    (issueID repoPart numberPart : String) (g : Guide)
    (hsplit : goSplitStr '#' issueID = [repoPart, numberPart])
    (hjoin : repoPart ++ "#" ++ numberPart = issueID)
    (hhit : st issueID = some g) (hgid : g.id ≠ "") :
    getGuide env st issueID = (some g, st, 0) := by
  simp only [getGuide, hsplit, hjoin, findByIssueID, hhit]
  rw [if_neg hgid]

/-- Helper: `GetGuide` on a cache miss with every collaborator
succeeding generates the guide, invokes the model exactly once, and
persists the result under the issue identity. -/
theorem getGuide_generates (env : GuideEnv) (st : GuideStore)
    (issueID repoPart numberPart owner repoName : String) (num : Int)
    (issue : Issue) (repoDoc : Repo) (chunks : List CodeChunk) (answer : String)
    (hsplit : goSplitStr '#' issueID = [repoPart, numberPart])
    (hjoin : repoPart ++ "#" ++ numberPart = issueID)
    (hmiss : st issueID = none)
    (hsplit2 : goSplitStr '/' repoPart = [owner, repoName])
    (hnum : goAtoi numberPart = some num)
    (hiss : env.getIssue owner repoName num = some issue)
    (hrepo : env.findRepo repoName = some repoDoc)
    (hch : env.topChunks repoDoc.id 20 = some chunks)
    (hgen : env.generate issue (chunks.map fun c => c.text) = some answer) :
    getGuide env st issueID
        = (some ⟨issueID, answer, issue, env.now⟩,
            upsert st ⟨issueID, answer, issue, env.now⟩, 1) := by
  simp only [getGuide, hsplit, hjoin, findByIssueID, hmiss, emptyGuide,
    hsplit2, hnum, hiss, hrepo, hch, hgen, if_true]

/-- C4.  Requesting the guide for one issue identity twice in a row —
with the store retaining the write of the first call — performs exactly one
generative-model invocation: the first call misses the cache, generates
(one model call) and persists; the second call is answered from the
cache with zero model calls.  The hypotheses say that the identity is
well-formed (`owner/repo#number`), that the store has no document for it
yet, and that each external collaborator succeeds on the generation
path. -/
theorem getGuide_twice_single_generation (env : GuideEnv) (st : GuideStore)
    (issueID repoPart numberPart owner repoName : String) (num : Int)
    (issue : Issue) (repoDoc : Repo) (chunks : List CodeChunk) (answer : String)
    (hsplit : goSplitStr '#' issueID = [repoPart, numberPart])
    (hjoin : repoPart ++ "#" ++ numberPart = issueID)
    (hmiss : st issueID = none)
    (hsplit2 : goSplitStr '/' repoPart = [owner, repoName])
    (hnum : goAtoi numberPart = some num)
    (hiss : env.getIssue owner repoName num = some issue)
    (hrepo : env.findRepo repoName = some repoDoc)
    (hch : env.topChunks repoDoc.id 20 = some chunks)
    (hgen : env.generate issue (chunks.map fun c => c.text) = some answer) :
    getGuide env st issueID
        = (some ⟨issueID, answer, issue, env.now⟩,
            upsert st ⟨issueID, answer, issue, env.now⟩, 1)
      ∧ getGuide env (upsert st ⟨issueID, answer, issue, env.now⟩) issueID
          = (some ⟨issueID, answer, issue, env.now⟩,
              upsert st ⟨issueID, answer, issue, env.now⟩, 0) := by
  refine ⟨getGuide_generates env st issueID repoPart numberPart owner repoName
    num issue repoDoc chunks answer hsplit hjoin hmiss hsplit2 hnum hiss hrepo hch hgen, ?_⟩
  exact getGuide_cache_hit env _ issueID repoPart numberPart _ hsplit hjoin
    (by simp [upsert]) (ne_empty_of_goSplitStr_pair hsplit)

/-! Concrete collaborators for the guide-side witnesses. -/

def issue0 : Issue := ⟨42, "Crash on startup", "The app crashes when started."⟩

def repoY : Repo := ⟨"ownerX/repoY", "repoY", "ownerX/repoY", 5, 0⟩

def chunk0 : CodeChunk := ⟨"c1", "ownerX/repoY", "package main", "main.go", 1⟩

/-- Environment in which every collaborator succeeds. -/
def env0 : GuideEnv :=
  ⟨fun _ _ _ => some issue0, fun _ => some repoY, fun _ _ => some [chunk0],
    fun _ _ => some "Step 1: read the code.", 7⟩

/-- The empty guides collection. -/
def emptyStore : GuideStore := fun _ => none

/-- Witness for C4 at the concrete identity `"ownerX/repoY#42"`. -/
theorem getGuide_twice_single_generation_witness :
    (goSplitStr '#' "ownerX/repoY#42" = ["ownerX/repoY", "42"]
      ∧ "ownerX/repoY" ++ "#" ++ "42" = "ownerX/repoY#42"
      ∧ emptyStore "ownerX/repoY#42" = none
      ∧ goSplitStr '/' "ownerX/repoY" = ["ownerX", "repoY"]
      ∧ goAtoi "42" = some 42
      ∧ env0.getIssue "ownerX" "repoY" 42 = some issue0
      ∧ env0.findRepo "repoY" = some repoY
      ∧ env0.topChunks repoY.id 20 = some [chunk0]
      ∧ env0.generate issue0 ([chunk0].map fun c => c.text)
          = some "Step 1: read the code.")
      ∧ (getGuide env0 emptyStore "ownerX/repoY#42"
            = (some ⟨"ownerX/repoY#42", "Step 1: read the code.", issue0, 7⟩,
                upsert emptyStore
                  ⟨"ownerX/repoY#42", "Step 1: read the code.", issue0, 7⟩, 1)
          ∧ getGuide env0
              (upsert emptyStore
                ⟨"ownerX/repoY#42", "Step 1: read the code.", issue0, 7⟩)
              "ownerX/repoY#42"
              = (some ⟨"ownerX/repoY#42", "Step 1: read the code.", issue0, 7⟩,
                  upsert emptyStore
                    ⟨"ownerX/repoY#42", "Step 1: read the code.", issue0, 7⟩, 0)) :=
  ⟨⟨rfl, rfl, rfl, rfl, rfl, rfl, rfl, rfl, rfl⟩,
    getGuide_twice_single_generation env0 emptyStore "ownerX/repoY#42"
      "ownerX/repoY" "42" "ownerX" "repoY" 42 issue0 repoY [chunk0]
      "Step 1: read the code." rfl rfl rfl rfl rfl rfl rfl rfl rfl⟩

/-- C5.  `Upsert` immediately followed by `FindByIssueID` with the same
identity returns a document deep-equal to what was written, and a second
`Upsert` under the same identity fully replaces the prior document — the
subsequent read returns exactly the new content, and since the
collection maps each `_id` to at most one document no duplicate can
exist. -/
theorem guide_upsert_get_replace (st : GuideStore) (g g' : Guide)
    (hid : g'.id = g.id) :
    findByIssueID (upsert st g) g.id = g
      ∧ findByIssueID (upsert (upsert st g) g') g.id = g' := by
  constructor
  · simp [findByIssueID, upsert]
  · simp [findByIssueID, upsert, hid]

def guideV1 : Guide := ⟨"ownerX/repoY#42", "First answer.", issue0, 1⟩

def guideV2 : Guide := ⟨"ownerX/repoY#42", "Second, different answer.", issue0, 2⟩

/-- Witness for C5 with two distinct contents under one identity. -/
theorem guide_upsert_get_replace_witness :
    guideV2.id = guideV1.id
      ∧ (findByIssueID (upsert emptyStore guideV1) guideV1.id = guideV1
          ∧ findByIssueID (upsert (upsert emptyStore guideV1) guideV2) guideV1.id
              = guideV2) :=
  ⟨rfl, guide_upsert_get_replace emptyStore guideV1 guideV2 rfl⟩

/-- C7 (counterexample).  The claim says that asking a follow-up
question when no guide exists fails with `NoContext` and does not
generate a guide.  Concretely: with an empty guides collection,
`Ask("ownerX/repoY#42", "Where do I begin")` does not fail — it returns
the placeholder answer — and it performs one generative-model
invocation, because `chatService.Ask` delegates to
`guideService.GetGuide`, whose miss path generates and caches a guide
itself. -/
theorem ask_missing_guide_counterexample :
    emptyStore "ownerX/repoY#42" = none
      ∧ (ask env0 emptyStore "ownerX/repoY#42" "Where do I begin").1 = some chatAnswer
      ∧ (ask env0 emptyStore "ownerX/repoY#42" "Where do I begin").2.2 = 1 :=
  ⟨rfl, rfl, rfl⟩

/-- C7 (amended).  What the code does instead: a follow-up `Ask` with a
non-empty question and no stored guide triggers guide generation through
`GetGuide` (one generative-model invocation, guide persisted) and then
answers with the placeholder; no `NoContext` failure exists — `Ask`
fails only if the generation path itself fails. -/
theorem ask_missing_guide_generates (env : GuideEnv) (st : GuideStore)
    (issueID repoPart numberPart owner repoName question : String) (num : Int)
    (issue : Issue) (repoDoc : Repo) (chunks : List CodeChunk) (answer : String)
    (hq : question ≠ "")
    (hsplit : goSplitStr '#' issueID = [repoPart, numberPart])
    (hjoin : repoPart ++ "#" ++ numberPart = issueID)
    (hmiss : st issueID = none)
    (hsplit2 : goSplitStr '/' repoPart = [owner, repoName])
    (hnum : goAtoi numberPart = some num)
    (hiss : env.getIssue owner repoName num = some issue)
    (hrepo : env.findRepo repoName = some repoDoc)
    (hch : env.topChunks repoDoc.id 20 = some chunks)
    (hgen : env.generate issue (chunks.map fun c => c.text) = some answer) :
    ask env st issueID question
        = (some chatAnswer, upsert st ⟨issueID, answer, issue, env.now⟩, 1) := by
  unfold ask
  rw [if_neg hq, getGuide_generates env st issueID repoPart numberPart owner
    repoName num issue repoDoc chunks answer hsplit hjoin hmiss hsplit2 hnum
    hiss hrepo hch hgen]

/-- Witness for the amended C7. -/
theorem ask_missing_guide_generates_witness :
    (("Where do I begin" : String) ≠ ""
      ∧ emptyStore "ownerX/repoY#42" = none
      ∧ goSplitStr '#' "ownerX/repoY#42" = ["ownerX/repoY", "42"])
      ∧ ask env0 emptyStore "ownerX/repoY#42" "Where do I begin"
          = (some chatAnswer,
              upsert emptyStore
                ⟨"ownerX/repoY#42", "Step 1: read the code.", issue0, 7⟩, 1) :=
  ⟨⟨by decide, rfl, rfl⟩,
    ask_missing_guide_generates env0 emptyStore "ownerX/repoY#42"
      "ownerX/repoY" "42" "ownerX" "repoY" "Where do I begin" 42 issue0 repoY
      [chunk0] "Step 1: read the code." (by decide) rfl rfl rfl rfl rfl rfl
      rfl rfl rfl⟩

/-- C10.  Whenever `Ask` is called with a non-empty question and the
guide retrieval through `GetGuide` succeeds, the returned answer is the
fixed constant `chatAnswer` ("This is a placeholder answer. RAG
integration pending.") — independent of the question and of the stored
content of the stored guide, both universally quantified here. -/
theorem ask_placeholder_answer (env : GuideEnv) (st : GuideStore)
    (contextID question : String) (hq : question ≠ "")
    (hg : (getGuide env st contextID).1.isSome = true) :
    (ask env st contextID question).1 = some chatAnswer := by
  unfold ask
  rw [if_neg hq]
  cases ht : getGuide env st contextID with
  | mk r p =>
      cases p with
      | mk st' n =>
          cases r with
          | none => rw [ht] at hg; simp at hg
          | some g => rfl

/-- Witness for C10. -/
theorem ask_placeholder_answer_witness :
    (("Why" : String) ≠ ""
      ∧ (getGuide env0 emptyStore "ownerX/repoY#42").1.isSome = true)
      ∧ (ask env0 emptyStore "ownerX/repoY#42" "Why").1 = some chatAnswer :=
  ⟨⟨by decide, rfl⟩,
    ask_placeholder_answer env0 emptyStore "ownerX/repoY#42" "Why"
      (by decide) rfl⟩

/-! ### RAG service (`service/rag_service.go`)

`RAGService.GenerateResponse` validates the query, embeds it, runs the
code-chunk vector search (external index, returning rows already sorted
by raw score), formats the retrieved snippets, and invokes the
generative model once with the answer prompt.  With zero retrieved
snippets it returns a fixed "insufficient context" answer without
invoking the model.  `RAGService.GenerateGuide` first calls
`GenerateResponse` in full and then invokes the generative model a
second time with the guide prompt.  The second result component counts
generative-model invocations (`LLM.GenerateResponse` calls). -/

/-- A decoded code-search row (the anonymous result struct in
`GenerateResponse`). -/
structure CodeHit where
  id : String
  repoId : String
  file : String
  text : String
  score : ℚ
  deriving DecidableEq

/-- The `Source` record as serialised into prompts and responses. -/
structure Source where
  repoId : String
  filePath : String
  content : String
  relevance : ℚ
  deriving DecidableEq

/-- The `RAGRequest` record. -/
structure RAGRequest where
  query : String
  repoId : String
  maxResults : Nat
  deriving DecidableEq

/-- The `RAGResponse` record; `guide` is empty except on the guide path. -/
structure RAGResponse where
  answer : String
  sources : List Source
  confidence : ℚ
  guide : String
  deriving DecidableEq

/-- External collaborators of the RAG service: the embedder, the
code-chunk vector index (the `$vectorSearch`/`$project`/`$sort`
aggregation, which returns up to 10 rows sorted by raw score for the
given repository filter), and the generative model. -/
structure RAGEnv where
  embed : String → Option (List ℚ)
  vectorIndex : List ℚ → String → Option (List CodeHit)
  generateText : String → Option String

/-- Model of `strings.TrimSpace`: strip leading and trailing whitespace. -/
def goTrimSpace (s : String) : String :=
  String.mk (((s.data.dropWhile Char.isWhitespace).reverse.dropWhile
    Char.isWhitespace).reverse)

/-- The canned answer returned when the vector search yields no rows. -/
def noResultsAnswer : String :=
  "I couldn\x27t find any relevant code snippets to answer your question. Please try rephrasing your question or ask about a different aspect of the codebase."

/-- One numbered, fenced snippet block of `formatSources`. -/
def formatSource (i : Nat) (s : Source) : String :=
  toString (i + 1) ++ ". In " ++ s.repoId ++ "/" ++ s.filePath ++ ":\n"
    ++ "```\n" ++ s.content ++ "\n```\n\n"

/-- Model of `formatSources`: all snippets concatenated in order, 1-indexed. -/
def formatSources (sources : List Source) : String :=
  String.join (sources.enum.map fun p => formatSource p.1 p.2)

/-- The direct-answer prompt template of `GenerateResponse`. -/
def answerPrompt (query sourcesText : String) : String :=
  "Based on this GitHub issue and relevant code snippets, provide a detailed guide:\n\nIssue Title: "
    ++ query ++ "\nIssue Description: " ++ query
    ++ "\n\nRelevant Code Snippets:\n" ++ sourcesText
    ++ "\n\nPlease provide a comprehensive guide that addresses the issue."

/-- The contribution-guide prompt template of `GenerateGuide` (the long
structural-contract instruction block, with the issue text and the
formatted sources interpolated at the end). -/
def guidePrompt (query sourcesText : String) : String :=
  "\n\n\tYou are generating a first-time contributor guide for a GitHub issue using retrieval-augmented context. You will be given:\n"
    ++ "\t•\tA GitHub issue describing a bug or feature request.\n"
    ++ "\t•\tA list of relevant files extracted from the codebase.\n\n"
    ++ "Write a clear, actionable, and beginner-friendly guide to help a developer contribute confidently—even if its their first time in the repo.\n\n"
    ++ "The guide should follow this structure:\n\n⸻\n\n"
    ++ "Goal\nSummarize the issue:\n"
    ++ "\t•\tWhat is the task (bug fix or feature)?\n"
    ++ "\t•\tWhy does it matter to the project or users?\n\n⸻\n\n"
    ++ "Files to Review\nFor each file provided:\n"
    ++ "\t•\tExplain what the file does in the context of the project.\n"
    ++ "\t•\tDescribe how it relates to the issue or implementation.\n"
    ++ "\t•\tMention important functions, components, or logic that the contributor should look at.\n\n⸻\n\n"
    ++ "How to Fix or Implement It\nProvide a step-by-step plan:\n"
    ++ "\t•\tOutline where and how to make the necessary changes.\n"
    ++ "\t•\tReference specific functions or file sections where edits should occur.\n"
    ++ "\t•\tAssume beginner-level familiarity with the codebase.\n"
    ++ "\t•\tBe clear and precise.\n"
    ++ "\t•\tUse bullet points or numbered steps when appropriate.\n\n⸻\n\n"
    ++ "How to Test It\nExplain how to test the fix or feature:\n"
    ++ "\t•\tMention relevant commands (e.g., npm run build, yarn test).\n"
    ++ "\t•\tIf manual testing is needed, describe how to reproduce the bug or verify the new feature works as intended.\n"
    ++ "\t•\tOptionally mention any existing tests or testing folders if relevant.\n\n⸻\n\n"
    ++ "Comments\nIf you know anything about the issue or the codebase, you can add quick comments to the guide.\n\n⸻\n\n"
    ++ "Output Guidelines:\n"
    ++ "\t•\tOutput should be in Markdown format.\n"
    ++ "\t•\tTotal length should be 400–500 words.\n"
    ++ "\t•\tDo not greet the user.\n"
    ++ "\t•\tAvoid a conversational tone.\n"
    ++ "\t•\tDo not include instructions about submitting pull requests.\n"
    ++ "\t•\tPrioritize clarity, relevance, and a confidence-building tone.\n"
    ++ "\t•\tDo not use emojis.\n\n"
    ++ "Formatting Guidelines:\n"
    ++ "\t•\tUse level 2 headers for top-level sections like Goal, Files to Review, etc.\n"
    ++ "\t•\tUse level 3 headers for optional sub-sections.\n"
    ++ "\t•\tUse bullet points or numbered steps where appropriate.\n"
    ++ "\t•\tUse fenced code blocks (triple backticks) for code snippets.\n"
    ++ "\t•\tUse Markdown block quotes for file paths.\n"
    ++ "\t•\tUse bold for important words.\n\t\n\n"
    ++ "GitHub Issue: " ++ query ++ "\n\nRelevant Files:\n" ++ sourcesText
    ++ "\n\nWrite a guide that helps a junior developer contribute confidently without prior repo experience."

/-- Model of `RAGService.GenerateResponse`: validate the query, embed it, run the
code vector search, and — when at least one row comes back — build the
answer prompt and invoke the generative model exactly once; with zero
rows return the canned no-results answer without any model call. -/
def generateResponse (env : RAGEnv) (req : RAGRequest) : Option RAGResponse × Nat :=
  if goTrimSpace req.query = "" then (none, 0)
  else
    match env.embed req.query with
    | none => (none, 0)
    | some queryEmbedding =>
        match env.vectorIndex queryEmbedding req.repoId with
        | none => (none, 0)
        | some [] => (some ⟨noResultsAnswer, [], 0, ""⟩, 0)
        | some (r0 :: rest) =>
            let sources := (r0 :: rest).map fun r =>
              (⟨r.repoId, r.file, r.text, r.score⟩ : Source)
            match env.generateText (answerPrompt req.query (formatSources sources)) with
            | none => (none, 1)
            | some answer => (some ⟨answer, sources, r0.score, ""⟩, 1)

/-- Model of `RAGService.GenerateGuide`: run `GenerateResponse` in full, then
invoke the generative model a second time with the guide prompt built
over the same sources, returning the guide alongside the first answer. -/
def generateGuideRAG (env : RAGEnv) (req : RAGRequest) : Option RAGResponse × Nat :=
  match generateResponse env req with
  | (none, n) => (none, n)
  | (some resp, n) =>
      match env.generateText (guidePrompt req.query (formatSources resp.sources)) with
      | none => (none, n + 1)
      | some guideText =>
          (some ⟨resp.answer, resp.sources, resp.confidence, guideText⟩, n + 1)

/-! Concrete collaborators for the RAG theorems. -/

def hit0 : CodeHit := ⟨"h1", "facebook/react", "src/index.js", "export default React", 1⟩

def ragEnv0 : RAGEnv :=
  ⟨fun _ => some [1], fun _ _ => some [hit0], fun _ => some "Here is the guide."⟩

def ragReq0 : RAGRequest := ⟨"fix the crash", "facebook/react", 0⟩

/-- C6 (counterexample).  The claim says every `generate` call invokes
the generative model exactly once.  On a concrete request whose
retrieval returns one snippet and whose model always answers,
`GenerateGuide` performs two invocations — one inside the
`GenerateResponse` it delegates to, one for the guide prompt — so the
count is 2, not 1. -/
theorem generateGuide_two_invocations_counterexample :
    (generateGuideRAG ragEnv0 ragReq0).2 = 2
      ∧ ¬ (generateGuideRAG ragEnv0 ragReq0).2 = 1 := by
  constructor
  · rfl
  · intro h
    have h2 : (generateGuideRAG ragEnv0 ragReq0).2 = 2 := rfl
    omega

/-- C6 (amended).  What the code does: on a request with a non-blank
query, a successful embedding and at least one retrieved snippet,
`GenerateResponse` invokes the generative model exactly once, while
`GenerateGuide` invokes it exactly twice (the delegated direct answer
plus the guide prompt) — never once per call for the guide kind.  (With
zero retrieved snippets `GenerateResponse` performs zero invocations,
returning the canned answer; the follow-up chat kind is settled
separately: `chatService.Ask` reaches no model at all, see the C10
theorem.) -/
theorem rag_invocation_counts (env : RAGEnv) (req : RAGRequest)
    (qv : List ℚ) (r0 : CodeHit) (rest : List CodeHit)
    (htrim : goTrimSpace req.query ≠ "")
    (hembed : env.embed req.query = some qv)
    (hidx : env.vectorIndex qv req.repoId = some (r0 :: rest))
    (hllm : ∀ p, (env.generateText p).isSome = true) :
    (generateResponse env req).2 = 1 ∧ (generateGuideRAG env req).2 = 2 := by
  obtain ⟨a, ha⟩ := Option.isSome_iff_exists.mp (hllm (answerPrompt req.query
    (formatSources ((r0 :: rest).map fun r =>
      (⟨r.repoId, r.file, r.text, r.score⟩ : Source)))))
  simp only [List.map_cons] at ha
  have h1 : generateResponse env req
      = (some ⟨a, (r0 :: rest).map fun r =>
          (⟨r.repoId, r.file, r.text, r.score⟩ : Source), r0.score, ""⟩, 1) := by
    simp [generateResponse, htrim, hembed, hidx, ha]
  obtain ⟨b, hb⟩ := Option.isSome_iff_exists.mp (hllm (guidePrompt req.query
    (formatSources ((r0 :: rest).map fun r =>
      (⟨r.repoId, r.file, r.text, r.score⟩ : Source)))))
  simp only [List.map_cons] at hb
  constructor
  · rw [h1]
  · unfold generateGuideRAG
    rw [h1]
    simp [hb]

/-- Witness for the amended C6. -/
theorem rag_invocation_counts_witness :
    (goTrimSpace ragReq0.query ≠ ""
      ∧ ragEnv0.embed ragReq0.query = some [1]
      ∧ ragEnv0.vectorIndex [1] ragReq0.repoId = some [hit0]
      ∧ ∀ p, (ragEnv0.generateText p).isSome = true)
      ∧ ((generateResponse ragEnv0 ragReq0).2 = 1
          ∧ (generateGuideRAG ragEnv0 ragReq0).2 = 2) :=
  ⟨⟨by decide, rfl, rfl, fun _ => rfl⟩,
    rag_invocation_counts ragEnv0 ragReq0 [1] hit0 [] (by decide) rfl rfl
      (fun _ => rfl)⟩

/-! ### Embedding gateways (`service/local_embedder.go`,
`service/vertex_embedder.go`)

`LocalEmbedder.Embed` interpolates the input text into a Python
one-liner, runs it as a subprocess, and parses the comma-separated
stdout into a float vector; `VertexEmbedder.Embed` sends the text in a
prediction request and extracts the embedding values of the first prediction.
The subprocess (command construction, execution and output parsing) and
the prediction call are the opaque embedding capability of the spec; we
pass them in as a function from the input text to either a vector
(respectively, a prediction list) or a failure.  What remains in the Go
functions — and what the embedding models — is the control flow: the
input text is forwarded unconditionally, with no empty-input check
anywhere, the capability is invoked exactly once, and for Vertex an
empty prediction list is mapped to a failure. -/

/-- Model of `LocalEmbedder.Embed`: invoke the subprocess capability on the given
text (once, unconditionally) and return its vector or its failure.  The
second component counts capability invocations. -/
def localEmbed (capability : String → Option (List ℚ)) (text : String) :
    Option (List ℚ) × Nat :=
  match capability text with
  | none => (none, 1)
  | some vec => (some vec, 1)

/-- Model of `VertexEmbedder.Embed`: send the prediction request (once,
unconditionally); an errored call or an empty prediction list is a
failure, otherwise the values of the first prediction are returned. -/
def vertexEmbed (predict : String → Option (List (List ℚ))) (text : String) :
    Option (List ℚ) × Nat :=
  match predict text with
  | none => (none, 1)
  | some [] => (none, 1)
  | some (p :: _) => (some p, 1)

/-- A capability that answers every input, including the empty text. -/
def capConst : String → Option (List ℚ) := fun _ => some [1, 2]

/-- C8 (counterexample).  The claim says `embed` with empty input fails
with `InvalidInput` and does not invoke the underlying capability.  With
the concrete capability above, `LocalEmbedder.Embed ""` invokes the
capability (count 1) and returns the vector it produced — there is no
empty-input validation. -/
theorem embed_empty_text_counterexample :
    (localEmbed capConst "").1 = some [1, 2] ∧ (localEmbed capConst "").2 = 1 :=
  ⟨rfl, rfl⟩

/-- C8 (amended).  What the code does: neither embedder validates its
input — on empty text each invokes the underlying capability exactly
once and returns whatever that capability produces (`LocalEmbedder`
passes the result through unchanged; `VertexEmbedder` additionally maps
an empty prediction list to a failure).  No `InvalidInput` path
exists. -/
theorem embed_no_empty_validation (capability : String → Option (List ℚ))
    (predict : String → Option (List (List ℚ))) :
    (localEmbed capability "").2 = 1
      ∧ (localEmbed capability "").1 = capability ""
      ∧ (vertexEmbed predict "").2 = 1 := by
  refine ⟨?_, ?_, ?_⟩
  · cases h : capability "" <;> simp [localEmbed, h]
  · cases h : capability "" <;> simp [localEmbed, h]
  · cases h : predict "" with
    | none => simp [vertexEmbed, h]
    | some l => cases l <;> simp [vertexEmbed, h]

end FirstCommit
